import Mathlib

/-!
Shallow embedding of the three leader-election protocols of this repository
(Bully, Ring, PraSLE) and proofs about them.

Each protocol is embedded as a pure state-transition system translated from
the C source:
* `src/examples/bully/bully-node.c`
* `src/examples/ring/ring-node.c`
* `src/examples/prasle/prasle-node.c`

Message handlers become functions `State → Msg → State × List Msg` (the list
is the sequence of packets handed to the transport during the call); timer
expiry handlers become functions `State → State × List Msg`.  Machine
integers (`uint16_t`) are modelled as `Nat`; the only arithmetic where
wrap-around could occur is the election-sequence increment, written with an
explicit `% 65536`.  Real-time aspects (etimer deadlines, clock readings,
the random startup delay) are not part of any transition's observable effect
on the algorithmic state and are omitted; which handler runs when is left
nondeterministic in the step relations, a superset of the real schedules.
-/

namespace Bully

/-- Message type codes of `bully-node.c` (`MSG_ELECTION` .. `MSG_ALIVE`). -/
def MSG_ELECTION : Nat := 1

def MSG_ANSWER : Nat := 2

def MSG_COORDINATOR : Nat := 3

def MSG_ALIVE : Nat := 4

/-- `#define MAX_NODES 10`: width of the duplicate filter. -/
def MAX_NODES : Nat := 10

/-- Wire record `bully_msg_t`: `{type, node_id, target_id, sequence}`. -/
structure BullyMsg where
  type : Nat
  node_id : Nat
  target_id : Nat
  sequence : Nat
deriving DecidableEq, Repr

/-- The three-state machine `bully_state_t`. -/
inductive BullyPhase where
  | NORMAL
  | ELECTION
  | WAITING_COORDINATOR
deriving DecidableEq, Repr

/-- The module-scope algorithmic state of one Bully node.  The
`last_seen_sequence` array is a list of `MAX_NODES` entries, all zero at
boot.  Timer deadlines are not part of the algorithmic state. -/
structure NodeState where
  phase : BullyPhase
  my_node_id : Nat
  current_leader : Nat
  election_sequence : Nat
  election_response_received : Bool
  last_seen_sequence : List Nat
deriving DecidableEq, Repr

/-- State at process start (`state = STATE_NORMAL`, `current_leader = 0`,
`election_sequence = 0`, filter all zero). -/
def initState (my : Nat) : NodeState :=
  { phase := .NORMAL
    my_node_id := my
    current_leader := 0
    election_sequence := 0
    election_response_received := false
    last_seen_sequence := List.replicate MAX_NODES 0 }

/-- `is_duplicate_message`: returns the duplicate verdict together with the
updated `last_seen_sequence` array (the C function updates the array in
place on the not-a-duplicate path). -/
def is_duplicate_message (seqs : List Nat) (sender_id sequence : Nat) :
    Bool × List Nat :=
  if sender_id = 0 ∨ sender_id > MAX_NODES then
    (false, seqs)
  else
    let idx := sender_id - 1
    if seqs.getD idx 0 ≥ sequence then
      (true, seqs)
    else
      (false, seqs.set idx sequence)

/-- A message as built by `send_message(msg_type, target_id, sequence)`. -/
def send_message (my : Nat) (msg_type target_id sequence : Nat) : BullyMsg :=
  { type := msg_type, node_id := my, target_id := target_id,
    sequence := sequence }

/-- A message as built by `broadcast_message(msg_type, sequence)`
(`target_id = 0`). -/
def broadcast_message (my : Nat) (msg_type sequence : Nat) : BullyMsg :=
  { type := msg_type, node_id := my, target_id := 0, sequence := sequence }

/-- `start_election`: no-op while already in `STATE_ELECTION`, otherwise
enter `STATE_ELECTION`, bump the (16-bit) sequence, clear the answer flag
and broadcast `ELECTION`. -/
def start_election (s : NodeState) : NodeState × List BullyMsg :=
  if s.phase = .ELECTION then
    (s, [])
  else
    let es := (s.election_sequence + 1) % 65536
    ({ s with
        phase := .ELECTION
        election_sequence := es
        election_response_received := false },
     [broadcast_message s.my_node_id MSG_ELECTION es])

/-- `handle_message` on an already-decoded record (the `len` check of the C
function is the concern of the wire-format section below).  Returns the new
state and the packets sent during the call. -/
def handle_message (s : NodeState) (m : BullyMsg) : NodeState × List BullyMsg :=
  -- 2. FILTER SELF-MESSAGES
  if m.node_id = s.my_node_id then
    (s, [])
  else
    -- 3. CHECK FOR DUPLICATES (ALIVE, ANSWER, COORDINATOR are exempt)
    let fr :=
      if m.type ≠ MSG_ALIVE ∧ m.type ≠ MSG_ANSWER ∧ m.type ≠ MSG_COORDINATOR then
        is_duplicate_message s.last_seen_sequence m.node_id m.sequence
      else
        (false, s.last_seen_sequence)
    if fr.1 then
      (s, [])
    else
      let s1 := { s with last_seen_sequence := fr.2 }
      -- 4. PROCESS MESSAGE BASED ON TYPE
      if m.type = MSG_ELECTION then
        if (m.target_id = 0 ∨ m.target_id = s1.my_node_id) ∧
            s1.my_node_id > m.node_id then
          (s1,
           send_message s1.my_node_id MSG_ANSWER m.node_id m.sequence ::
             (if s1.current_leader = s1.my_node_id then
               [broadcast_message s1.my_node_id MSG_COORDINATOR
                 s1.election_sequence]
             else []))
        else
          (s1, [])
      else if m.type = MSG_ANSWER then
        if m.target_id = s1.my_node_id ∧ s1.phase = .ELECTION then
          ({ s1 with
              election_response_received := true
              phase := .WAITING_COORDINATOR }, [])
        else
          (s1, [])
      else if m.type = MSG_COORDINATOR then
        if m.node_id ≥ s1.my_node_id then
          ({ s1 with current_leader := m.node_id, phase := .NORMAL }, [])
        else
          if s1.phase ≠ .ELECTION then
            start_election s1
          else
            (s1, [])
      else if m.type = MSG_ALIVE then
        if m.node_id > s1.my_node_id ∧
            (s1.current_leader = 0 ∨ s1.phase = .WAITING_COORDINATOR ∨
              m.node_id > s1.current_leader) then
          ({ s1 with current_leader := m.node_id, phase := .NORMAL }, [])
        else
          (s1, [])
      else
        (s1, [])

/-- Expiry handler of `election_timer` in the main loop. -/
def election_timer_expired (s : NodeState) : NodeState × List BullyMsg :=
  if s.phase = .ELECTION ∨ s.phase = .WAITING_COORDINATOR then
    if ¬ s.election_response_received then
      ({ s with current_leader := s.my_node_id, phase := .NORMAL },
       [broadcast_message s.my_node_id MSG_COORDINATOR s.election_sequence])
    else
      (s, [])
  else
    (s, [])

/-- Expiry handler of `coordinator_timer` in the main loop. -/
def coordinator_timer_expired (s : NodeState) : NodeState × List BullyMsg :=
  if s.phase = .WAITING_COORDINATOR ∨ s.current_leader = 0 then
    start_election s
  else if s.current_leader ≠ s.my_node_id then
    start_election { s with current_leader := 0 }
  else
    (s, [])

/-- Expiry handler of `alive_timer` in the main loop. -/
def alive_timer_expired (s : NodeState) : NodeState × List BullyMsg :=
  if s.current_leader = s.my_node_id then
    (s, [broadcast_message s.my_node_id MSG_ALIVE s.election_sequence])
  else
    (s, [])

/-- One event of a Bully node: a message delivery, the initial
`start_election()` call of the process body, or one of the three timer
expiries. -/
inductive BStep : NodeState → NodeState → Prop where
  | recv (s : NodeState) (m : BullyMsg) : BStep s (handle_message s m).1
  | startElect (s : NodeState) : BStep s (start_election s).1
  | electionTimer (s : NodeState) : BStep s (election_timer_expired s).1
  | coordinatorTimer (s : NodeState) : BStep s (coordinator_timer_expired s).1
  | aliveTimer (s : NodeState) : BStep s (alive_timer_expired s).1

/-- Finitely many events in sequence. -/
def BSteps : NodeState → NodeState → Prop :=
  Relation.ReflTransGen BStep

/-- States a Bully node can be in over any run. -/
inductive Reachable : NodeState → Prop where
  | init (my : Nat) : Reachable (initState my)
  | step {s t : NodeState} : Reachable s → BStep s t → Reachable t

end Bully

namespace Ring

/-- Message type codes of `ring-node.c`. -/
def MSG_ELECTION : Nat := 1

def MSG_COORDINATOR : Nat := 2

def MSG_ALIVE : Nat := 3

/-- `#define RING_SIZE 6`. -/
def RING_SIZE : Nat := 6

/-- Wire record `ring_msg_t`. -/
structure RingMsg where
  type : Nat
  initiator_id : Nat
  candidate_id : Nat
  sequence : Nat
  target_node_id : Nat
deriving DecidableEq, Repr

/-- The `ring_state_t` enumeration. -/
inductive RingPhase where
  | NORMAL
  | ELECTION
  | WAITING_COORDINATOR
deriving DecidableEq, Repr

/-- Module-scope state of one Ring node. -/
structure RingNode where
  phase : RingPhase
  my_node_id : Nat
  current_leader : Nat
  election_sequence : Nat
  next_node_id : Nat
  election_in_progress : Bool
deriving DecidableEq, Repr

/-- `get_next_node`: successor in the static ring `1 → 2 → … → RING_SIZE → 1`. -/
def get_next_node (node_id : Nat) : Nat :=
  if node_id ≥ RING_SIZE then 1 else node_id + 1

/-- The packet built by `send_to_next_node` (its `target_node_id` is the
node's stored `next_node_id`). -/
def send_to_next_node (s : RingNode) (msg_type initiator candidate sequence : Nat) :
    RingMsg :=
  { type := msg_type, initiator_id := initiator, candidate_id := candidate,
    sequence := sequence, target_node_id := s.next_node_id }

/-- `start_election` of `ring-node.c`. -/
def start_election (s : RingNode) : RingNode × List RingMsg :=
  if s.election_in_progress then
    (s, [])
  else
    let es := (s.election_sequence + 1) % 65536
    let s1 := { s with
                 phase := .ELECTION
                 election_sequence := es
                 election_in_progress := true }
    (s1, [send_to_next_node s1 MSG_ELECTION s1.my_node_id s1.my_node_id es])

/-- `handle_message` of `ring-node.c` on a decoded record. -/
def handle_message (s : RingNode) (m : RingMsg) : RingNode × List RingMsg :=
  -- only process a message targeted at this node
  if m.target_node_id ≠ s.my_node_id then
    (s, [])
  else if m.type = MSG_ELECTION then
    if m.initiator_id = s.my_node_id then
      -- our election message returned: adopt the accumulated candidate
      let s1 := { s with
                   current_leader := m.candidate_id
                   phase := .NORMAL
                   election_in_progress := false }
      (s1, [send_to_next_node s1 MSG_COORDINATOR s1.my_node_id
              s1.current_leader m.sequence])
    else
      let new_candidate :=
        if s.my_node_id > m.candidate_id then s.my_node_id else m.candidate_id
      let s1 := { s with phase := .ELECTION, election_in_progress := true }
      (s1, [send_to_next_node s1 MSG_ELECTION m.initiator_id new_candidate
              m.sequence])
  else if m.type = MSG_COORDINATOR then
    if m.initiator_id = s.my_node_id ∧ s.current_leader = s.my_node_id then
      -- our coordinator message returned: terminate, do not forward
      (s, [])
    else
      let s1 := { s with
                   current_leader := m.candidate_id
                   phase := .NORMAL
                   election_in_progress := false }
      (s1, [send_to_next_node s1 MSG_COORDINATOR m.initiator_id m.candidate_id
              m.sequence])
  else if m.type = MSG_ALIVE then
    if m.initiator_id = s.my_node_id ∧ s.current_leader = s.my_node_id then
      (s, [])
    else if m.initiator_id = s.current_leader then
      (s, [send_to_next_node s MSG_ALIVE m.initiator_id m.candidate_id
             m.sequence])
    else
      (s, [])
  else
    (s, [])

/-- A network of Ring nodes, indexed by node id. -/
def Net : Type := Nat → RingNode

/-- Deliver a token to its target node and collect the forwarded token, if
any.  The transport broadcasts every packet, but `handle_message` is the
identity with no output on every node whose id differs from
`target_node_id`, so delivering to the target alone is faithful. -/
def deliver (net : Net) (m : RingMsg) : Net × Option RingMsg :=
  let t := m.target_node_id
  let r := handle_message (net t) m
  (Function.update net t r.1, r.2.head?)

/-- Count how many times a token is forwarded before it is dropped (or the
fuel runs out). -/
def tokenRun (fuel : Nat) (net : Net) (m : RingMsg) : Nat :=
  match fuel with
  | 0 => 0
  | fuel + 1 =>
    match deliver net m with
    | (_, none) => 0
    | (net2, some m2) => tokenRun fuel net2 m2 + 1

end Ring

namespace Prasle

/-- `#define N_MAX 20`. -/
def N_MAX : Nat := 20

/-- `#define K_ROUNDS 10`. -/
def K_ROUNDS : Int := 10

/-- `#define NETWORK_SIZE 6`. -/
def NETWORK_SIZE : Nat := 6

/-- Wire record `prasle_msg_t`. -/
structure PrasleMsg where
  min_value : Nat
  leader_id : Nat
  sender_id : Nat
deriving DecidableEq, Repr

/-- One entry of the `neighbors[]` table (`neighbor_info_t`). -/
structure NeighborInfo where
  node_id : Nat
  min_value : Nat
  leader_id : Nat
  valid : Bool
deriving DecidableEq, Repr

/-- Module-scope algorithmic state of one PraSLE node.  `round_counter` is a
C `int`, hence `Int`; the two `clock_time_t` statistics fields are omitted
(real time). -/
structure PrasleState where
  my_node_id : Nat
  round_counter : Int
  neighbors : List NeighborInfo
  mini : Nat
  temp_mini : Nat
  leaderi : Nat
  temp_leaderi : Nat
  election_converged : Bool
  messages_sent : Nat
  messages_received : Nat
deriving DecidableEq, Repr

/-- `get_ranking_value`: the node id itself. -/
def get_ranking_value (my : Nat) : Nat := my

/-- `init_neighbors` under the selected `NETWORK_TOPOLOGY == TOPOLOGY_RING`:
successor `(my % N) + 1` and predecessor `((my - 2 + N) % N) + 1`, the latter
computed in C `int` arithmetic. -/
def init_neighbors (my : Nat) : List NeighborInfo :=
  [ { node_id := my % NETWORK_SIZE + 1, min_value := N_MAX + 1,
      leader_id := N_MAX + 1, valid := true },
    { node_id := (((my : Int) - 2 + NETWORK_SIZE) % NETWORK_SIZE).toNat + 1,
      min_value := N_MAX + 1, leader_id := N_MAX + 1, valid := true } ]

/-- State after the initialization phase of `prasle_process` (Algorithm 1
lines 2–7): `round_counter = K + 1`, `mini = N_MAX + 1` (sentinel),
`temp_mini = ranking`, both leader fields the node's own id. -/
def initState (my : Nat) : PrasleState :=
  { my_node_id := my
    round_counter := K_ROUNDS + 1
    neighbors := init_neighbors my
    mini := N_MAX + 1
    temp_mini := get_ranking_value my
    leaderi := my
    temp_leaderi := my
    election_converged := false
    messages_sent := 0
    messages_received := 0 }

/-- `is_better`: strict lexicographic order `(m1, l1) <_lex (m2, l2)`. -/
def is_better (m1 l1 m2 l2 : Nat) : Bool :=
  m1 < m2 ∨ (m1 = m2 ∧ l1 < l2)

/-- Update the first matching neighbor-table entry (the C loop breaks after
the first hit; entries with other ids are untouched). -/
def updateNeighbors (nbs : List NeighborInfo) (sid mv lid : Nat) :
    List NeighborInfo :=
  match nbs with
  | [] => []
  | nb :: rest =>
    if nb.node_id = sid then
      { nb with min_value := mv, leader_id := lid } :: rest
    else
      nb :: updateNeighbors rest sid mv lid

/-- `handle_message` of `prasle-node.c` on a decoded record: bump the
receive counter, refresh the sender's cache entry if present, and adopt the
received pair into `(temp_mini, temp_leaderi)` when lexicographically
smaller. -/
def handle_message (st : PrasleState) (m : PrasleMsg) : PrasleState :=
  let st1 := { st with
                messages_received := st.messages_received + 1
                neighbors := updateNeighbors st.neighbors m.sender_id
                  m.min_value m.leader_id }
  if is_better m.min_value m.leader_id st1.temp_mini st1.temp_leaderi then
    { st1 with temp_mini := m.min_value, temp_leaderi := m.leader_id }
  else
    st1

/-- `check_convergence`: the early-convergence probe. -/
def check_convergence (st : PrasleState) : PrasleState :=
  if ¬ st.election_converged ∧ st.round_counter > K_ROUNDS then
    if st.mini = st.temp_mini ∧ st.leaderi = st.temp_leaderi then
      { st with election_converged := true }
    else
      st
  else
    st

/-- The update-and-disseminate step (Algorithm 1 lines 20–26): adopt
`(temp_mini, temp_leaderi)` into `(mini, leaderi)` when strictly
lexicographically smaller, in which case the pair is also broadcast
(counted by `messages_sent`). -/
def round_update (st : PrasleState) : PrasleState :=
  if is_better st.temp_mini st.temp_leaderi st.mini st.leaderi then
    { st with
       mini := st.temp_mini
       leaderi := st.temp_leaderi
       messages_sent := st.messages_sent + 1 }
  else
    st

/-- The end-of-round branch of the main loop: on `round_counter ≤ 0` the
termination branch marks the election converged, otherwise the
early-convergence probe `check_convergence` runs. -/
def round_tail (st : PrasleState) : PrasleState :=
  if st.round_counter ≤ 0 then
    if ¬ st.election_converged then
      { st with election_converged := true }
    else
      st
  else
    check_convergence st

/-- One iteration of the main loop of `prasle_process` with receive window
contents `msgs`: decrement `round_counter`, run the receive phase, do the
update-and-disseminate step, then either the `round_counter ≤ 0`
termination branch or the early-convergence probe. -/
def round_step (st : PrasleState) (msgs : List PrasleMsg) : PrasleState :=
  round_tail (round_update
    (msgs.foldl handle_message { st with round_counter := st.round_counter - 1 }))

/-- One event of a PraSLE node: a message delivery inside a receive window,
or a complete round. -/
inductive PStep : PrasleState → PrasleState → Prop where
  | recv (st : PrasleState) (m : PrasleMsg) : PStep st (handle_message st m)
  | round (st : PrasleState) (msgs : List PrasleMsg) :
      PStep st (round_step st msgs)

/-- Finitely many PraSLE events in sequence. -/
def PSteps : PrasleState → PrasleState → Prop :=
  Relation.ReflTransGen PStep

/-- The `(mini, leaderi)` pair of a state. -/
def pairOf (st : PrasleState) : Nat × Nat := (st.mini, st.leaderi)

/-- The `(temp_mini, temp_leaderi)` pair of a state. -/
def tempPairOf (st : PrasleState) : Nat × Nat := (st.temp_mini, st.temp_leaderi)

/-- `<_lex` as a proposition on pairs. -/
def lexLt (p q : Nat × Nat) : Prop :=
  p.1 < q.1 ∨ (p.1 = q.1 ∧ p.2 < q.2)

/-- `≤_lex` on pairs. -/
def lexLe (p q : Nat × Nat) : Prop :=
  lexLt p q ∨ p = q

instance (p q : Nat × Nat) : Decidable (lexLt p q) := by
  unfold lexLt; infer_instance

instance (p q : Nat × Nat) : Decidable (lexLe p q) := by
  unfold lexLe; infer_instance

end Prasle

namespace Wire

/-- The C offset-allocation rule: round `off` up to the alignment `a`
(`a > 0`). -/
def alignUp (off a : Nat) : Nat := (off + a - 1) / a * a

/-- `sizeof` of a C struct from its members' `(size, alignment)` pairs:
each member is placed at its alignment, and the total is rounded up to the
largest member alignment.  On both simulation targets of this repository
(msp430 motes and the native Cooja platform) `uint8_t` has size and
alignment 1 and `uint16_t` has size and alignment 2, and none of the three
message structs is declared packed. -/
def structSize (fields : List (Nat × Nat)) : Nat :=
  let off := fields.foldl (fun off f => alignUp off f.2 + f.1) 0
  alignUp off (fields.foldl (fun a f => max a f.2) 1)

/-- `(size, alignment)` of `uint8_t`. -/
def u8 : Nat × Nat := (1, 1)

/-- `(size, alignment)` of `uint16_t`. -/
def u16 : Nat × Nat := (2, 2)

/-- `sizeof(bully_msg_t)`: `{uint8_t type; uint16_t node_id; uint16_t
target_id; uint16_t sequence;}`.  This is the length passed to
`simple_udp_sendto` and demanded by the receiver's `len !=
sizeof(bully_msg_t)` check. -/
def bullyMsgSize : Nat := structSize [u8, u16, u16, u16]

/-- `sizeof(ring_msg_t)`: `{uint8_t type; uint16_t initiator_id; uint16_t
candidate_id; uint16_t sequence; uint16_t target_node_id;}`. -/
def ringMsgSize : Nat := structSize [u8, u16, u16, u16, u16]

/-- `sizeof(prasle_msg_t)`: `{uint16_t min_value; uint16_t leader_id;
uint16_t sender_id;}`. -/
def prasleMsgSize : Nat := structSize [u16, u16, u16]

end Wire

/-! ### Helper lemmas -/

theorem getD_set_le (l : List Nat) (idx i v : Nat) (h : l.getD idx 0 ≤ v) :
    l.getD i 0 ≤ (l.set idx v).getD i 0 := by
  rcases eq_or_ne i idx with rfl | hne
  · by_cases hlt : i < l.length
    · simp [List.getD, List.getElem?_set, hlt] at h ⊢
      exact h
    · simp [List.getD, List.getElem?_set, hlt,
        List.getElem?_eq_none (by omega : l.length ≤ i)]
  · simp [List.getD, List.getElem?_set, hne.symm]

theorem getD_set_self (l : List Nat) (idx v : Nat) (h : idx < l.length) :
    (l.set idx v).getD idx 0 = v := by
  simp [List.getD, List.getElem?_set, h]

namespace Bully

theorem start_election_my (s : NodeState) :
    (start_election s).1.my_node_id = s.my_node_id := by
  unfold start_election
  repeat' (first | rfl | split | dsimp only)

theorem handle_message_my (s : NodeState) (m : BullyMsg) :
    (handle_message s m).1.my_node_id = s.my_node_id := by
  unfold handle_message start_election
  repeat' (first | rfl | split | dsimp only)

theorem election_timer_my (s : NodeState) :
    (election_timer_expired s).1.my_node_id = s.my_node_id := by
  unfold election_timer_expired
  repeat' (first | rfl | split | dsimp only)

theorem coordinator_timer_my (s : NodeState) :
    (coordinator_timer_expired s).1.my_node_id = s.my_node_id := by
  unfold coordinator_timer_expired start_election
  repeat' (first | rfl | split | dsimp only)

theorem alive_timer_my (s : NodeState) :
    (alive_timer_expired s).1.my_node_id = s.my_node_id := by
  unfold alive_timer_expired
  repeat' (first | rfl | split | dsimp only)

theorem bstep_my {s t : NodeState} (h : BStep s t) :
    t.my_node_id = s.my_node_id := by
  cases h with
  | recv m => exact handle_message_my s m
  | startElect => exact start_election_my s
  | electionTimer => exact election_timer_my s
  | coordinatorTimer => exact coordinator_timer_my s
  | aliveTimer => exact alive_timer_my s

theorem bsteps_my {s t : NodeState} (h : BSteps s t) :
    t.my_node_id = s.my_node_id := by
  induction h with
  | refl => rfl
  | tail _ hst ih => exact (bstep_my hst).trans ih

theorem is_duplicate_seen_mono (seqs : List Nat) (sid q i : Nat) :
    seqs.getD i 0 ≤ (is_duplicate_message seqs sid q).2.getD i 0 := by
  unfold is_duplicate_message
  repeat' (first | split | dsimp only)
  · exact le_refl _
  · exact le_refl _
  · exact getD_set_le _ _ _ _ (by omega)

theorem start_election_seen (s : NodeState) :
    (start_election s).1.last_seen_sequence = s.last_seen_sequence := by
  unfold start_election
  repeat' (first | rfl | split | dsimp only)

theorem handle_message_seen_mono (s : NodeState) (m : BullyMsg) (i : Nat) :
    s.last_seen_sequence.getD i 0 ≤
      (handle_message s m).1.last_seen_sequence.getD i 0 := by
  unfold handle_message start_election
  repeat' (first | split | dsimp only)
  all_goals
    first
      | exact le_refl _
      | exact is_duplicate_seen_mono s.last_seen_sequence m.node_id m.sequence i

theorem bstep_seen_mono {s t : NodeState} (h : BStep s t) (i : Nat) :
    s.last_seen_sequence.getD i 0 ≤ t.last_seen_sequence.getD i 0 := by
  cases h with
  | recv m => exact handle_message_seen_mono s m i
  | startElect => rw [start_election_seen]
  | electionTimer =>
      rw [show (election_timer_expired s).1.last_seen_sequence =
            s.last_seen_sequence by
          unfold election_timer_expired
          repeat' (first | rfl | split | dsimp only)]
  | coordinatorTimer =>
      rw [show (coordinator_timer_expired s).1.last_seen_sequence =
            s.last_seen_sequence by
          unfold coordinator_timer_expired
          repeat' (first | rfl | split | dsimp only)
          all_goals rw [start_election_seen]]
  | aliveTimer =>
      rw [show (alive_timer_expired s).1.last_seen_sequence =
            s.last_seen_sequence by
          unfold alive_timer_expired
          repeat' (first | rfl | split | dsimp only)]

theorem bsteps_seen_mono {s t : NodeState} (h : BSteps s t) (i : Nat) :
    s.last_seen_sequence.getD i 0 ≤ t.last_seen_sequence.getD i 0 := by
  induction h with
  | refl => exact le_refl _
  | tail _ hst ih => exact ih.trans (bstep_seen_mono hst i)

end Bully

namespace Bully

theorem is_duplicate_true_of_seen (seqs : List Nat) (sid q : Nat)
    (h1 : 1 ≤ sid) (h2 : sid ≤ MAX_NODES)
    (hseen : q ≤ seqs.getD (sid - 1) 0) :
    is_duplicate_message seqs sid q = (true, seqs) := by
  unfold is_duplicate_message MAX_NODES at *
  rw [if_neg (by omega), if_pos (by omega)]

theorem is_duplicate_records (seqs : List Nat) (sid q : Nat)
    (h1 : 1 ≤ sid) (h2 : sid ≤ MAX_NODES) (hlen : seqs.length = MAX_NODES) :
    q ≤ (is_duplicate_message seqs sid q).2.getD (sid - 1) 0 := by
  unfold is_duplicate_message MAX_NODES at *
  rw [if_neg (by omega)]
  by_cases hd : seqs.getD (sid - 1) 0 ≥ q
  · rw [if_pos hd]
    exact hd
  · rw [if_neg hd]
    rw [getD_set_self _ _ _ (by omega)]

theorem handle_election_drops (s : NodeState) (m : BullyMsg)
    (hty : m.type = MSG_ELECTION) (h1 : 1 ≤ m.node_id) (h2 : m.node_id ≤ MAX_NODES)
    (hseen : m.sequence ≤ s.last_seen_sequence.getD (m.node_id - 1) 0) :
    handle_message s m = (s, []) := by
  unfold handle_message
  by_cases hns : m.node_id = s.my_node_id
  · rw [if_pos hns]
  · rw [if_neg hns]
    have hfr := is_duplicate_true_of_seen s.last_seen_sequence m.node_id m.sequence h1 h2 hseen
    simp only [hty, MSG_ELECTION, MSG_ALIVE, MSG_ANSWER, MSG_COORDINATOR]
    norm_num
    simp [hfr]

end Bully

namespace Bully

theorem is_duplicate_fst_true (seqs : List Nat) (sid q : Nat)
    (h : (is_duplicate_message seqs sid q).1 = true) :
    q ≤ seqs.getD (sid - 1) 0 := by
  unfold is_duplicate_message at h
  by_cases hr : sid = 0 ∨ sid > MAX_NODES
  · rw [if_pos hr] at h
    simp at h
  · rw [if_neg hr] at h
    by_cases hd : seqs.getD (sid - 1) 0 ≥ q
    · exact hd
    · rw [if_neg hd] at h
      simp at h

theorem handle_election_seen_after (s : NodeState) (m : BullyMsg)
    (hty : m.type = MSG_ELECTION) (h1 : 1 ≤ m.node_id) (h2 : m.node_id ≤ MAX_NODES)
    (hlen : s.last_seen_sequence.length = MAX_NODES)
    (hns : m.node_id ≠ s.my_node_id) :
    m.sequence ≤ (handle_message s m).1.last_seen_sequence.getD (m.node_id - 1) 0 := by
  have hrec := is_duplicate_records s.last_seen_sequence m.node_id m.sequence h1 h2 hlen
  unfold handle_message
  rw [if_neg hns]
  simp only [hty, MSG_ELECTION, MSG_ALIVE, MSG_ANSWER, MSG_COORDINATOR]
  norm_num
  simp only [List.getD_eq_getElem?_getD] at hrec
  repeat' (first | split | dsimp only)
  all_goals
    first
      | exact hrec
      | (have hft := is_duplicate_fst_true s.last_seen_sequence m.node_id
            m.sequence (by assumption)
         simpa using hft)

end Bully

namespace Bully

theorem start_election_leader (s : NodeState) :
    (start_election s).1.current_leader = s.current_leader := by
  unfold start_election
  repeat' (first | rfl | split | dsimp only)

theorem handle_message_inv (s : NodeState) (m : BullyMsg)
    (ih : s.current_leader ≠ 0 → s.my_node_id ≤ s.current_leader) :
    (handle_message s m).1.current_leader ≠ 0 →
      (handle_message s m).1.my_node_id ≤ (handle_message s m).1.current_leader := by
  unfold handle_message start_election
  repeat' (first | split | dsimp only)
  all_goals intro hnz
  all_goals first | exact ih hnz | omega

theorem election_timer_inv (s : NodeState)
    (ih : s.current_leader ≠ 0 → s.my_node_id ≤ s.current_leader) :
    (election_timer_expired s).1.current_leader ≠ 0 →
      (election_timer_expired s).1.my_node_id ≤
        (election_timer_expired s).1.current_leader := by
  unfold election_timer_expired
  repeat' (first | split | dsimp only)
  all_goals intro hnz
  all_goals first | exact ih hnz | omega

theorem coordinator_timer_inv (s : NodeState)
    (ih : s.current_leader ≠ 0 → s.my_node_id ≤ s.current_leader) :
    (coordinator_timer_expired s).1.current_leader ≠ 0 →
      (coordinator_timer_expired s).1.my_node_id ≤
        (coordinator_timer_expired s).1.current_leader := by
  unfold coordinator_timer_expired start_election
  repeat' (first | split | dsimp only)
  all_goals intro hnz
  all_goals first | exact ih hnz | omega

theorem alive_timer_inv (s : NodeState)
    (ih : s.current_leader ≠ 0 → s.my_node_id ≤ s.current_leader) :
    (alive_timer_expired s).1.current_leader ≠ 0 →
      (alive_timer_expired s).1.my_node_id ≤
        (alive_timer_expired s).1.current_leader := by
  unfold alive_timer_expired
  repeat' (first | split | dsimp only)
  all_goals intro hnz
  all_goals first | exact ih hnz | omega

theorem start_election_inv (s : NodeState)
    (ih : s.current_leader ≠ 0 → s.my_node_id ≤ s.current_leader) :
    (start_election s).1.current_leader ≠ 0 →
      (start_election s).1.my_node_id ≤ (start_election s).1.current_leader := by
  unfold start_election
  repeat' (first | split | dsimp only)
  all_goals intro hnz
  all_goals first | exact ih hnz | omega

end Bully

namespace Bully

/-- C1 (amended): for a sender id inside the duplicate-filter range `1 ..
MAX_NODES`, a Bully `ELECTION(s, q)` is acted upon at most once per
receiver: once it has been delivered, every later delivery of the same
message — after arbitrarily many further events — leaves the receiver's
state unchanged and sends nothing, dropped by the per-sender
last-seen-sequence filter. -/
theorem election_acted_on_at_most_once (st st2 : NodeState) (m : BullyMsg)
    (hty : m.type = MSG_ELECTION) (h1 : 1 ≤ m.node_id)
    (h2 : m.node_id ≤ MAX_NODES)
    (hlen : st.last_seen_sequence.length = MAX_NODES)
    (hsteps : BSteps (handle_message st m).1 st2) :
    handle_message st2 m = (st2, []) := by
  by_cases hns : m.node_id = st.my_node_id
  · have hmy : st2.my_node_id = st.my_node_id := by
      rw [bsteps_my hsteps, handle_message_my]
    unfold handle_message
    rw [if_pos (by rw [hmy, ← hns])]
  · have h0 := handle_election_seen_after st m hty h1 h2 hlen hns
    have hmono := bsteps_seen_mono hsteps (m.node_id - 1)
    exact handle_election_drops st2 m hty h1 h2 (h0.trans hmono)

/-- Witness for `election_acted_on_at_most_once`: node 5 receives
`ELECTION` from node 3 with sequence 2; redelivering it immediately is a
no-op with no output. -/
theorem election_acted_on_at_most_once_witness :
    handle_message (handle_message (initState 5) ⟨1, 3, 0, 2⟩).1 ⟨1, 3, 0, 2⟩ =
      ((handle_message (initState 5) ⟨1, 3, 0, 2⟩).1, []) :=
  election_acted_on_at_most_once (initState 5) _ ⟨1, 3, 0, 2⟩ (by decide)
    (by decide) (by decide) (by decide) Relation.ReflTransGen.refl

/-- C1 counterexample: the claim is false for senders outside the filter
range.  Node 12 receives `ELECTION` from node 11 (`11 > MAX_NODES`) twice;
both deliveries are fully processed and both emit an `ANSWER`, because
`is_duplicate_message` never filters senders above `MAX_NODES`. -/
theorem election_out_of_range_acted_on_twice_cex :
    (handle_message (initState 12) ⟨1, 11, 0, 5⟩).2 = [⟨2, 12, 11, 5⟩] ∧
    (handle_message (handle_message (initState 12) ⟨1, 11, 0, 5⟩).1
        ⟨1, 11, 0, 5⟩).2 = [⟨2, 12, 11, 5⟩] := by
  decide

/-- C4: in every reachable state of a Bully node, a nonzero
`current_leader` is at least `my_node_id`: every assignment to
`current_leader` (COORDINATOR acceptance with `sender_id ≥ my_node_id`,
ALIVE-based adoption with `sender_id > my_node_id`, election-timer
self-election) preserves the invariant, and a COORDINATOR claim from a
lower-id sender is rejected. -/
theorem leader_never_below_my_id (s : NodeState) (h : Reachable s)
    (hnz : s.current_leader ≠ 0) : s.my_node_id ≤ s.current_leader := by
  induction h with
  | init my => exact absurd rfl hnz
  | step hr hs ih =>
      revert hnz
      cases hs with
      | recv m => exact handle_message_inv _ m ih
      | startElect => exact start_election_inv _ ih
      | electionTimer => exact election_timer_inv _ ih
      | coordinatorTimer => exact coordinator_timer_inv _ ih
      | aliveTimer => exact alive_timer_inv _ ih

/-- Witness for `leader_never_below_my_id`: node 5 accepts a COORDINATOR
announcement from node 7, and indeed `5 ≤ 7`. -/
theorem leader_never_below_my_id_witness :
    (handle_message (initState 5) ⟨3, 7, 0, 1⟩).1.my_node_id ≤
      (handle_message (initState 5) ⟨3, 7, 0, 1⟩).1.current_leader :=
  leader_never_below_my_id _
    (Reachable.step (Reachable.init 5) (BStep.recv _ ⟨3, 7, 0, 1⟩))
    (by decide)

/-- C9: the duplicate filter classifies `ELECTION` sequence 0 from any
in-range sender as a duplicate in every filter state — in particular a
fresh node drops the very first `ELECTION(s, 0)` it receives, because all
`last_seen_sequence` entries start at 0 and `last_seen ≥ sequence` counts
as duplicate — while senders with id 0 or above `MAX_NODES` are never
filtered at all. -/
theorem seq_zero_dropped_and_out_of_range_unfiltered :
    (∀ (seqs : List Nat) (sid : Nat), 1 ≤ sid → sid ≤ MAX_NODES →
        (is_duplicate_message seqs sid 0).1 = true) ∧
    (∀ (my sid : Nat), 1 ≤ sid → sid ≤ MAX_NODES →
        handle_message (initState my) ⟨MSG_ELECTION, sid, 0, 0⟩ =
          (initState my, [])) ∧
    (∀ (seqs : List Nat) (sid q : Nat), sid = 0 ∨ MAX_NODES < sid →
        is_duplicate_message seqs sid q = (false, seqs)) := by
  refine ⟨?_, ?_, ?_⟩
  · intro seqs sid h1 h2
    rw [is_duplicate_true_of_seen seqs sid 0 h1 h2 (Nat.zero_le _)]
  · intro my sid h1 h2
    exact handle_election_drops (initState my) ⟨MSG_ELECTION, sid, 0, 0⟩ rfl h1
      h2 (Nat.zero_le _)
  · intro seqs sid q h
    unfold is_duplicate_message
    rw [if_pos h]

/-- Witness for `seq_zero_dropped_and_out_of_range_unfiltered` at concrete
inputs: sender 4 with sequence 0 against a fresh filter, node 7 dropping
its first `ELECTION(4, 0)`, and unfiltered sender 11. -/
theorem seq_zero_dropped_witness :
    (is_duplicate_message (List.replicate 10 0) 4 0).1 = true ∧
    handle_message (initState 7) ⟨1, 4, 0, 0⟩ = (initState 7, []) ∧
    is_duplicate_message [3, 3] 11 9 = (false, [3, 3]) :=
  ⟨seq_zero_dropped_and_out_of_range_unfiltered.1 _ 4 (by decide) (by decide),
   seq_zero_dropped_and_out_of_range_unfiltered.2.1 7 4 (by decide) (by decide),
   seq_zero_dropped_and_out_of_range_unfiltered.2.2 _ 11 9 (by decide)⟩

end Bully

namespace Prasle

theorem handle_message_pair (st : PrasleState) (m : PrasleMsg) :
    pairOf (handle_message st m) = pairOf st := by
  unfold handle_message pairOf
  repeat' (first | rfl | split | dsimp only)

theorem foldl_handle_pair (msgs : List PrasleMsg) (st : PrasleState) :
    pairOf (msgs.foldl handle_message st) = pairOf st := by
  induction msgs generalizing st with
  | nil => rfl
  | cons m rest ih => rw [List.foldl_cons, ih, handle_message_pair]

theorem check_convergence_pair (st : PrasleState) :
    pairOf (check_convergence st) = pairOf st := by
  unfold check_convergence pairOf
  repeat' (first | rfl | split | dsimp only)

theorem check_convergence_temp (st : PrasleState) :
    tempPairOf (check_convergence st) = tempPairOf st := by
  unfold check_convergence tempPairOf
  repeat' (first | rfl | split | dsimp only)

theorem round_tail_pair (st : PrasleState) :
    pairOf (round_tail st) = pairOf st := by
  unfold round_tail
  repeat' (first | rfl | split | dsimp only)
  exact check_convergence_pair st

theorem round_tail_temp (st : PrasleState) :
    tempPairOf (round_tail st) = tempPairOf st := by
  unfold round_tail
  repeat' (first | rfl | split | dsimp only)
  exact check_convergence_temp st

theorem round_update_temp (st : PrasleState) :
    tempPairOf (round_update st) = tempPairOf st := by
  unfold round_update tempPairOf
  repeat' (first | rfl | split | dsimp only)

theorem is_better_iff (m1 l1 m2 l2 : Nat) :
    is_better m1 l1 m2 l2 = true ↔ lexLt (m1, l1) (m2, l2) := by
  simp [is_better, lexLt]

theorem lexLe_of_not_better (m1 l1 m2 l2 : Nat)
    (h : ¬ is_better m1 l1 m2 l2 = true) : lexLe (m2, l2) (m1, l1) := by
  simp [is_better] at h
  unfold lexLe lexLt
  simp only [Prod.mk.injEq]
  omega

theorem round_update_pair (st : PrasleState) :
    pairOf (round_update st) = pairOf st ∨
      lexLt (pairOf (round_update st)) (pairOf st) := by
  unfold round_update
  by_cases h : is_better st.temp_mini st.temp_leaderi st.mini st.leaderi = true
  · rw [if_pos h]
    right
    exact (is_better_iff _ _ _ _).1 h
  · rw [if_neg h]
    left
    rfl

theorem round_step_pair (st : PrasleState) (msgs : List PrasleMsg) :
    pairOf (round_step st msgs) = pairOf st ∨
      lexLt (pairOf (round_step st msgs)) (pairOf st) := by
  unfold round_step
  rw [round_tail_pair]
  have hB : pairOf (msgs.foldl handle_message
      { st with round_counter := st.round_counter - 1 }) = pairOf st := by
    rw [foldl_handle_pair]
    rfl
  rcases round_update_pair (msgs.foldl handle_message
      { st with round_counter := st.round_counter - 1 }) with h | h
  · left
    rw [h, hB]
  · right
    rw [← hB]
    exact h

theorem lexLe_trans {p q r : Nat × Nat} (h1 : lexLe p q) (h2 : lexLe q r) :
    lexLe p r := by
  obtain ⟨a, b⟩ := p
  obtain ⟨c, d⟩ := q
  obtain ⟨e, f⟩ := r
  unfold lexLe lexLt at *
  rcases h1 with h1 | h1 <;> rcases h2 with h2 | h2 <;>
    simp only [Prod.mk.injEq] at * <;> omega

end Prasle

namespace Prasle

theorem updateNeighbors_no_match (nbs : List NeighborInfo) (sid mv lid : Nat)
    (h : ∀ nb ∈ nbs, nb.node_id ≠ sid) :
    updateNeighbors nbs sid mv lid = nbs := by
  induction nbs with
  | nil => rfl
  | cons nb rest ih =>
      unfold updateNeighbors
      rw [if_neg (h nb (List.mem_cons_self nb rest))]
      rw [ih fun x hx => h x (List.mem_cons_of_mem nb hx)]

/-- C5: `(mini, leaderi)` is non-increasing in `<_lex` over the whole run:
every single event (message receipt or complete round) either leaves the
pair unchanged or strictly lowers it, and hence along any sequence of
events the final pair is `≤_lex` the initial one. -/
theorem pair_lex_nonincreasing :
    (∀ (s t : PrasleState), PStep s t →
        pairOf t = pairOf s ∨ lexLt (pairOf t) (pairOf s)) ∧
    (∀ (s t : PrasleState), PSteps s t → lexLe (pairOf t) (pairOf s)) := by
  have hstep : ∀ (s t : PrasleState), PStep s t →
      pairOf t = pairOf s ∨ lexLt (pairOf t) (pairOf s) := by
    intro s t h
    cases h with
    | recv m => exact Or.inl (handle_message_pair s m)
    | round msgs =>
        rcases round_step_pair s msgs with h | h
        · exact Or.inl h
        · exact Or.inr h
  refine ⟨hstep, ?_⟩
  intro s t h
  induction h with
  | refl => exact Or.inr rfl
  | tail _ hst ih =>
      rcases hstep _ _ hst with he | hl
      · rw [he]
        exact ih
      · exact lexLe_trans (Or.inl hl) ih

/-- Witness for `pair_lex_nonincreasing`: node 4 runs one round in which it
hears `(1, 1)` from node 5; the pair drops from `(21, 4)` to `(1, 1)`,
which is `≤_lex` where it started. -/
theorem pair_lex_nonincreasing_witness :
    lexLe (pairOf (round_step (initState 4) [⟨1, 1, 5⟩]))
      (pairOf (initState 4)) :=
  pair_lex_nonincreasing.2 (initState 4) _
    (Relation.ReflTransGen.single (PStep.round (initState 4) [⟨1, 1, 5⟩]))

/-- C6 (amended): `(mini, leaderi) ≤_lex (temp_mini, temp_leaderi)` holds at
the end of every round, i.e. immediately after the update-and-disseminate
step (and still after the termination/probe branch).  It does not hold in
the initial state — see the counterexample. -/
theorem round_boundary_pair_le_temp (st : PrasleState)
    (msgs : List PrasleMsg) :
    lexLe (pairOf (round_step st msgs)) (tempPairOf (round_step st msgs)) := by
  unfold round_step
  rw [round_tail_pair, round_tail_temp, round_update_temp]
  set stB := msgs.foldl handle_message
    { st with round_counter := st.round_counter - 1 } with hstB
  unfold round_update
  by_cases h : is_better stB.temp_mini stB.temp_leaderi stB.mini stB.leaderi
      = true
  · rw [if_pos h]
    exact Or.inr rfl
  · rw [if_neg h]
    exact lexLe_of_not_better _ _ _ _ h

/-- C6 counterexample: in the state right after initialization the claimed
relation fails: node 1 boots with `(mini, leaderi) = (N_MAX + 1, 1) =
(21, 1)` and `(temp_mini, temp_leaderi) = (1, 1)`, and `(21, 1) ≤_lex
(1, 1)` is false — `mini` starts at the sentinel `N_MAX + 1`, strictly
above `temp_mini = ranking_value = my_node_id`. -/
theorem init_pair_le_temp_cex :
    ¬ lexLe (pairOf (initState 1)) (tempPairOf (initState 1)) := by
  decide

/-- C3: the early-convergence probe can never fire.  `check_convergence`
only acts when `round_counter > K_ROUNDS`, but whenever the claimed trigger
condition holds — `round_counter ≤ 0` together with `(mini, leaderi) =
(temp_mini, temp_leaderi)` — the probe returns the state unchanged, so it
does not record convergence there.  (The code sets the flag only in the
unconditional `round_counter ≤ 0` termination branch, regardless of the
equality condition.) -/
theorem check_convergence_dead_on_claimed_trigger (st : PrasleState)
    (hrc : st.round_counter ≤ 0) (hm : st.mini = st.temp_mini)
    (hl : st.leaderi = st.temp_leaderi) :
    check_convergence st = st := by
  unfold check_convergence K_ROUNDS
  rw [if_neg (by omega)]

/-- Witness for `check_convergence_dead_on_claimed_trigger`: a node that
has executed all its rounds (`round_counter = 0`), holds equal current and
temporary pairs and has not yet converged is left untouched by the probe —
its `election_converged` flag stays `false`. -/
theorem check_convergence_dead_witness :
    check_convergence
        { my_node_id := 3, round_counter := 0, neighbors := [], mini := 1,
          temp_mini := 1, leaderi := 1, temp_leaderi := 1,
          election_converged := false, messages_sent := 4,
          messages_received := 9 } =
      { my_node_id := 3, round_counter := 0, neighbors := [], mini := 1,
        temp_mini := 1, leaderi := 1, temp_leaderi := 1,
        election_converged := false, messages_sent := 4,
        messages_received := 9 } :=
  check_convergence_dead_on_claimed_trigger _ (by decide) (by decide)
    (by decide)

/-- C10: the lexicographic adoption applies to every well-sized message
regardless of whether its sender appears in the neighbor table: when no
table entry matches `sender_id`, the cache update is silently skipped (the
table is returned unchanged) while `(temp_mini, temp_leaderi)` is still
lowered to the message's pair whenever that pair is `<_lex` smaller. -/
theorem adoption_independent_of_neighbor_table (st : PrasleState)
    (m : PrasleMsg) (h : ∀ nb ∈ st.neighbors, nb.node_id ≠ m.sender_id) :
    handle_message st m =
      { st with
         messages_received := st.messages_received + 1
         temp_mini :=
           if is_better m.min_value m.leader_id st.temp_mini st.temp_leaderi
           then m.min_value else st.temp_mini
         temp_leaderi :=
           if is_better m.min_value m.leader_id st.temp_mini st.temp_leaderi
           then m.leader_id else st.temp_leaderi } := by
  unfold handle_message
  rw [updateNeighbors_no_match st.neighbors m.sender_id m.min_value
    m.leader_id h]
  by_cases hb : is_better m.min_value m.leader_id st.temp_mini st.temp_leaderi
      = true
  · simp only [hb]
    rfl
  · simp only [hb]
    rfl

/-- Witness for `adoption_independent_of_neighbor_table`: node 2's ring
table holds neighbors 3 and 1; a message from node 5 leaves the table
untouched but still lowers the temporary pair to `(1, 1)`. -/
theorem adoption_independent_witness :
    handle_message (initState 2) ⟨1, 1, 5⟩ =
      { initState 2 with
         messages_received := 1, temp_mini := 1, temp_leaderi := 1 } :=
  adoption_independent_of_neighbor_table (initState 2) ⟨1, 1, 5⟩ (by decide)

end Prasle

namespace Wire

/-- C8 counterexample: the claimed payload sizes 7 B (Bully) and 9 B
(Ring) are wrong — the 1-byte `type` field is followed by a padding byte
before the first 2-byte-aligned `uint16_t` member, so `sizeof` is 8 and
10. -/
theorem payload_sizes_cex :
    ¬ (bullyMsgSize = 7 ∧ ringMsgSize = 9 ∧ prasleMsgSize = 6) := by
  decide

/-- C8 (amended): the on-wire payload of each protocol's message record —
the length passed to the transport's send and required by each receiver's
length check — is `sizeof` of the (unpacked) struct: 8 bytes for Bully, 10
bytes for Ring and 6 bytes for PraSLE. -/
theorem payload_sizes :
    bullyMsgSize = 8 ∧ ringMsgSize = 10 ∧ prasleMsgSize = 6 := by
  decide

end Wire

namespace Ring

/-- C2 (amended): when a Ring node receives an ELECTION message whose
`initiator_id` equals its own id, it sets `current_leader` to the message's
`candidate` field, transitions to `NORMAL`, clears `election_in_progress`,
and sends a COORDINATOR message to its successor carrying `initiator =
my_id` and `candidate =` the received message's candidate (the new
`current_leader`) — which equals `my_id` only when the returning token's
candidate is `my_id`. -/
theorem election_return_behavior (st : RingNode) (m : RingMsg)
    (hty : m.type = MSG_ELECTION) (htar : m.target_node_id = st.my_node_id)
    (hini : m.initiator_id = st.my_node_id) :
    handle_message st m =
      ({ st with
          current_leader := m.candidate_id
          phase := .NORMAL
          election_in_progress := false },
       [{ type := MSG_COORDINATOR, initiator_id := st.my_node_id,
          candidate_id := m.candidate_id, sequence := m.sequence,
          target_node_id := st.next_node_id }]) := by
  unfold handle_message send_to_next_node
  simp [hty, htar, hini, MSG_ELECTION]

/-- Witness for `election_return_behavior`: node 6's own token returns with
candidate 6; node 6 adopts leader 6 and sends `COORDINATOR(6, 6)` to its
successor, node 1. -/
theorem election_return_behavior_witness :
    handle_message ⟨.ELECTION, 6, 0, 1, 1, true⟩ ⟨1, 6, 6, 1, 6⟩ =
      (⟨.NORMAL, 6, 6, 1, 1, false⟩, [⟨2, 6, 6, 1, 1⟩]) :=
  election_return_behavior _ _ rfl rfl rfl

/-- C2 counterexample: node 3's token returns carrying candidate 6.  The
node does not become leader and the COORDINATOR it sends carries
`candidate = 6`, not `my_id = 3`: `current_leader` is set to 6 and the
outgoing message is `COORDINATOR(initiator = 3, candidate = 6)`. -/
theorem election_return_candidate_cex :
    handle_message ⟨.ELECTION, 3, 0, 1, 4, true⟩ ⟨1, 3, 6, 1, 3⟩ =
      (⟨.NORMAL, 3, 6, 1, 4, false⟩, [⟨2, 3, 6, 1, 4⟩]) ∧ (6 : Nat) ≠ 3 := by
  decide

/-- C7: a COORDINATOR token circulates the ring exactly once.  In a
well-formed ring of `RING_SIZE` nodes (node `i` has id `i` and successor
`get_next_node i`; phases, leaders, sequences and flags of the other nodes
arbitrary), the token emitted by a leader `L` (`initiator = candidate =
L = current_leader of L`) is forwarded exactly `RING_SIZE - 1` times — once
by each other node — and when it returns to `L`, where `initiator_id` and
`current_leader` both equal that node's id, it is dropped and never
forwarded again: the count is `RING_SIZE - 1` for every fuel bound `≥
RING_SIZE`. -/
theorem coordinator_circulates_once
    (stF : Nat → RingPhase) (leadF seqF : Nat → Nat) (flagF : Nat → Bool)
    (L q fuel : Nat) (h1 : 1 ≤ L) (h6 : L ≤ RING_SIZE) (hL : leadF L = L)
    (hf : RING_SIZE ≤ fuel) :
    tokenRun fuel
      (fun i => ⟨stF i, i, leadF i, seqF i, get_next_node i, flagF i⟩)
      ⟨MSG_COORDINATOR, L, L, q, get_next_node L⟩ = RING_SIZE - 1 := by
  unfold RING_SIZE at h6 hf ⊢
  obtain ⟨k, rfl⟩ : ∃ k, fuel = k + 6 := ⟨fuel - 6, by omega⟩
  interval_cases L <;>
    rw [show k + 6 = k + 5 + 1 from rfl] <;>
    simp [tokenRun, deliver, handle_message, send_to_next_node,
      get_next_node, Function.update, MSG_COORDINATOR, MSG_ELECTION,
      MSG_ALIVE, RING_SIZE, hL]

/-- Witness for `coordinator_circulates_once`: leader 6 in a quiet ring of
six nodes; its COORDINATOR token is forwarded five times and then dropped
on return. -/
theorem coordinator_circulates_once_witness :
    tokenRun 6
      (fun i => ⟨RingPhase.NORMAL, i, if i = 6 then 6 else 0, 0,
        get_next_node i, false⟩)
      ⟨MSG_COORDINATOR, 6, 6, 1, get_next_node 6⟩ = RING_SIZE - 1 :=
  coordinator_circulates_once (fun _ => RingPhase.NORMAL)
    (fun i => if i = 6 then 6 else 0) (fun _ => 0) (fun _ => false) 6 1 6
    (by decide) (by decide) (by decide) (by decide)

end Ring
